import Mathlib

/-!
Verification of the Vulkan triangle application's capability-negotiation and
resource-creation logic (Application.cpp / Application.h, latest snapshot).

The C++ functions are shallowly embedded as pure Lean functions:
* Vulkan handles and platform queries are replaced by a snapshot record
  (`PhysicalDevice`) holding exactly the data the queries would return;
* machine integers (`uint32_t`) are modelled as `Nat`; the only arithmetic in
  scope (`minImageCount + 1`) cannot overflow for realistic counts, and no
  modular wrap-around appears in the source paths verified here;
* fallible operations (`std::vector::at` on an empty vector, fatal `throw`s)
  return `Option`, with `none` as the fault/throw case.
-/

namespace VulkanTriangle

/-- Vulkan enumeration constant `VK_QUEUE_GRAPHICS_BIT` (bit 0). -/
def VK_QUEUE_GRAPHICS_BIT : Nat := 1

/-- Vulkan enumeration constant `VK_PHYSICAL_DEVICE_TYPE_DISCRETE_GPU`. -/
def VK_PHYSICAL_DEVICE_TYPE_DISCRETE_GPU : Nat := 2

/-- Vulkan enumeration constant `VK_FORMAT_B8G8R8A8_SRGB`. -/
def VK_FORMAT_B8G8R8A8_SRGB : Nat := 50

/-- Vulkan enumeration constant `VK_COLORSPACE_SRGB_NONLINEAR_KHR`. -/
def VK_COLORSPACE_SRGB_NONLINEAR_KHR : Nat := 0

/-- The device extension list of `Application.h`: `{ VK_KHR_SWAPCHAIN_EXTENSION_NAME }`. -/
def deviceExtensions : List String := ["VK_KHR_swapchain"]

/-- `std::numeric_limits<uint32_t>::max()`. -/
def uint32Max : Nat := 4294967295

/-- `VkExtent2D`. -/
structure Extent2D where
  width : Nat
  height : Nat
deriving DecidableEq, Repr

/-- The fields of `VkSurfaceCapabilitiesKHR` read by `createSwapChain` and
`chooseSwapExtent`. -/
structure SurfaceCapabilitiesKHR where
  minImageCount : Nat
  maxImageCount : Nat
  currentExtent : Extent2D
  minImageExtent : Extent2D
  maxImageExtent : Extent2D
deriving DecidableEq, Repr

/-- `VkSurfaceFormatKHR`: a (pixel format, color space) pair. -/
structure SurfaceFormat where
  format : Nat
  colorSpace : Nat
deriving DecidableEq, Repr

/-- One entry of the queue-family scan: the `VkQueueFamilyProperties::queueFlags`
word together with the result of `vkGetPhysicalDeviceSurfaceSupportKHR` for this
family index against the application's surface. -/
structure QueueFamily where
  queueFlags : Nat
  presentSupport : Bool
deriving DecidableEq, Repr

/-- Truthiness of `queueFamily.queueFlags & VK_QUEUE_GRAPHICS_BIT` in C++. -/
def QueueFamily.graphicsCapable (f : QueueFamily) : Bool :=
  f.queueFlags &&& VK_QUEUE_GRAPHICS_BIT != 0

/-- The `QueueFamilyIndices` struct of `Application.h`. -/
structure QueueFamilyIndices where
  graphicsFamily : Option Nat
  presentationFamily : Option Nat
deriving DecidableEq, Repr

/-- `QueueFamilyIndices::isComplete()`. -/
def QueueFamilyIndices.isComplete (q : QueueFamilyIndices) : Bool :=
  q.graphicsFamily.isSome && q.presentationFamily.isSome

/-- Snapshot of one enumerated physical device together with everything the
platform queries (`vkGetPhysicalDeviceProperties`,
`vkGetPhysicalDeviceQueueFamilyProperties`, `vkEnumerateDeviceExtensionProperties`,
`vkGetPhysicalDeviceSurface*KHR`) would report for it against the fixed surface. -/
structure PhysicalDevice where
  deviceType : Nat
  deviceName : String
  queueFamilies : List QueueFamily
  availableExtensions : List String
  surfaceCapabilities : SurfaceCapabilitiesKHR
  surfaceFormats : List SurfaceFormat
  presentationModes : List Nat
deriving DecidableEq, Repr

/-- The `SwapChainSupportDetails` struct of `Application.h`. -/
structure SwapChainSupportDetails where
  surfaceCapabilities : SurfaceCapabilitiesKHR
  surfaceFormats : List SurfaceFormat
  presentationModes : List Nat
deriving DecidableEq, Repr

/-- `Application::querySwapChainSupport`: reads surface capabilities, the
supported surface formats and the supported presentation modes of the device. -/
def querySwapChainSupport (d : PhysicalDevice) : SwapChainSupportDetails :=
  { surfaceCapabilities := d.surfaceCapabilities
    surfaceFormats := d.surfaceFormats
    presentationModes := d.presentationModes }

/-- `Application::checkPhysicalDeviceExtensionsSupport`: the set of required
extensions with every available extension erased is empty, i.e. every required
extension occurs among the available ones. -/
def checkPhysicalDeviceExtensionsSupport (d : PhysicalDevice) : Bool :=
  deviceExtensions.all (fun req => d.availableExtensions.contains req)

/-- One iteration body of the scan loop in `Application::findQueueFamilies`
(lines 781-793): assign `graphicsFamily = i` if the family's graphics bit is
set, then assign `presentationFamily = i` if the family can present. -/
def stepIndices (qf : QueueFamily) (i : Nat) (indices : QueueFamilyIndices) : QueueFamilyIndices :=
  let indices1 := if qf.graphicsCapable then { indices with graphicsFamily := some i } else indices
  if qf.presentSupport then { indices1 with presentationFamily := some i } else indices1

/-- Scan loop of `Application::findQueueFamilies` (lines 770-802): run the
iteration body per family, breaking once both indices are set; `i` advances
only when the loop does not break. -/
def findQueueFamiliesAux : List QueueFamily → Nat → QueueFamilyIndices → QueueFamilyIndices
  | [], _, indices => indices
  | qf :: rest, i, indices =>
    let indices2 := stepIndices qf i indices
    if indices2.isComplete then indices2 else findQueueFamiliesAux rest (i + 1) indices2

/-- `Application::findQueueFamilies`, starting from a default-constructed
(`nullopt`, `nullopt`) `QueueFamilyIndices`. -/
def findQueueFamilies (fams : List QueueFamily) : QueueFamilyIndices :=
  findQueueFamiliesAux fams 0 ⟨none, none⟩

/-- `Application::isPhysicalDeviceSuitable` (lines 756-768): complete queue
family indices, supported device extensions, and — only when the extensions are
supported — a non-empty surface-format list and non-empty presentation-mode
list. -/
def isPhysicalDeviceSuitable (d : PhysicalDevice) : Bool :=
  let indices := findQueueFamilies d.queueFamilies
  let deviceExtensionsSupported := checkPhysicalDeviceExtensionsSupport d
  let swapChainSupportAdequate :=
    if deviceExtensionsSupported then
      let swapChainSupportDetails := querySwapChainSupport d
      !swapChainSupportDetails.surfaceFormats.isEmpty &&
        !swapChainSupportDetails.presentationModes.isEmpty
    else false
  indices.isComplete && deviceExtensionsSupported && swapChainSupportAdequate

/-- Selection loop of `Application::pickVulkanPhysicalDevice` (lines 362-375):
every suitable device overwrites `vulkanPhysicalDevice`; the loop breaks only
when the suitable device just stored is a discrete GPU. -/
def pickVulkanPhysicalDeviceLoop : List PhysicalDevice → Option PhysicalDevice → Option PhysicalDevice
  | [], best => best
  | d :: rest, best =>
    if isPhysicalDeviceSuitable d then
      if d.deviceType = VK_PHYSICAL_DEVICE_TYPE_DISCRETE_GPU then some d
      else pickVulkanPhysicalDeviceLoop rest (some d)
    else pickVulkanPhysicalDeviceLoop rest best

/-- `Application::pickVulkanPhysicalDevice`: `vulkanPhysicalDevice` starts as
`VK_NULL_HANDLE` (here `none`); a `none` result models the fatal
`RUNTIME ERROR: No suitable physical device found!` throw (and subsumes the
earlier zero-devices throw, since an empty list also yields `none`). -/
def pickVulkanPhysicalDevice (devices : List PhysicalDevice) : Option PhysicalDevice :=
  pickVulkanPhysicalDeviceLoop devices none

/-- Scan loop of `Application::chooseSwapSurfaceFormat` (lines 830-836):
return the first entry whose format is `VK_FORMAT_B8G8R8A8_SRGB` and whose
color space is `VK_COLORSPACE_SRGB_NONLINEAR_KHR`. -/
def chooseSwapSurfaceFormatLoop : List SurfaceFormat → Option SurfaceFormat
  | [] => none
  | f :: rest =>
    if f.format == VK_FORMAT_B8G8R8A8_SRGB && f.colorSpace == VK_COLORSPACE_SRGB_NONLINEAR_KHR then
      some f
    else chooseSwapSurfaceFormatLoop rest

/-- `Application::chooseSwapSurfaceFormat`: preferred entry if the scan finds
one, otherwise `availableSurfaceFormats.at(0)`; `none` models the
`std::out_of_range` fault of `.at(0)` on an empty vector. -/
def chooseSwapSurfaceFormat (availableSurfaceFormats : List SurfaceFormat) : Option SurfaceFormat :=
  match chooseSwapSurfaceFormatLoop availableSurfaceFormats with
  | some f => some f
  | none => availableSurfaceFormats.head?

/-- `std::clamp(v, lo, hi)` after the reference implementation
`v < lo ? lo : hi < v ? hi : v`. The C++ standard leaves `hi < lo` undefined;
this embedding resolves that case exactly as the reference implementation
(and libstdc++/libc++) computes it, returning `hi`. -/
def stdClamp (v lo hi : Nat) : Nat :=
  if v < lo then lo else if hi < v then hi else v

/-- Image-count computation of `Application::createSwapChain` (line 465):
`std::clamp(minImageCount + 1, minImageCount, maxImageCount)`. -/
def swapChainImagesCount (caps : SurfaceCapabilitiesKHR) : Nat :=
  stdClamp (caps.minImageCount + 1) caps.minImageCount caps.maxImageCount

/-- `Application::chooseSwapExtent` (lines 853-870): if `currentExtent.width`
differs from `uint32_t` max, take `currentExtent` verbatim; otherwise clamp the
framebuffer size per axis to `[minImageExtent, maxImageExtent]`. -/
def chooseSwapExtent (surfaceCapabilities : SurfaceCapabilitiesKHR)
    (fbWidth fbHeight : Nat) : Extent2D :=
  if surfaceCapabilities.currentExtent.width ≠ uint32Max then
    surfaceCapabilities.currentExtent
  else
    { width := stdClamp fbWidth surfaceCapabilities.minImageExtent.width
        surfaceCapabilities.maxImageExtent.width
      height := stdClamp fbHeight surfaceCapabilities.minImageExtent.height
        surfaceCapabilities.maxImageExtent.height }

/-- `VkSharingMode` values used by `createSwapChain`. -/
inductive VkSharingMode
  | exclusive
  | concurrent
deriving DecidableEq, Repr

/-- The sharing-related fields of `VkSwapchainCreateInfoKHR` set by
`createSwapChain`; the empty list models `pQueueFamilyIndices = nullptr`. -/
structure SwapChainSharingInfo where
  imageSharingMode : VkSharingMode
  pQueueFamilyIndices : List Nat
  queueFamilyIndexCount : Nat
deriving DecidableEq, Repr

/-- Sharing-mode selection of `Application::createSwapChain` (lines 477-493):
distinct graphics and presentation families give concurrent sharing with the
index pair `{graphics, presentation}` and count 2, a shared family gives
exclusive sharing with no index list and count 0. -/
def swapChainSharingInfo (graphicsFamily presentationFamily : Nat) : SwapChainSharingInfo :=
  if graphicsFamily ≠ presentationFamily then
    ⟨VkSharingMode.concurrent, [graphicsFamily, presentationFamily], 2⟩
  else
    ⟨VkSharingMode.exclusive, [], 0⟩

/-- The observable events of `Application::createGraphicsPipeline` relevant to
shader-module lifetime: module creation, layout and pipeline creation, module
destruction, and the fatal throw on pipeline-creation failure. -/
inductive PipelineEvent
  | createVertShaderModule
  | createFragShaderModule
  | createPipelineLayout
  | createPipeline
  | destroyVertShaderModule
  | destroyFragShaderModule
  | throwPipelineError
deriving DecidableEq, Repr

/-- Event trace of `Application::createGraphicsPipeline` (lines 593-754) as a
function of whether `vkCreateGraphicsPipelines` succeeds: both shader modules
are created first, the pipeline layout and pipeline are created, and then the
source either throws (failure, line 748 — before any module destruction) or
destroys the two shader modules (success, lines 752-753). -/
def createGraphicsPipelineEvents (pipelineCreationSucceeds : Bool) : List PipelineEvent :=
  let pre := [PipelineEvent.createVertShaderModule, PipelineEvent.createFragShaderModule,
    PipelineEvent.createPipelineLayout, PipelineEvent.createPipeline]
  if pipelineCreationSucceeds then
    pre ++ [PipelineEvent.destroyVertShaderModule, PipelineEvent.destroyFragShaderModule]
  else
    pre ++ [PipelineEvent.throwPipelineError]

/-- The destroyable resources of a successful initialization run. The physical
device handle is platform-owned and never destroyed, so it does not appear. -/
inductive Resource
  | window
  | vkInstance
  | surface
  | logicalDevice
  | swapchain
  | imageView (i : Nat)
  | renderPass
  | pipelineLayout
  | graphicsPipeline
deriving DecidableEq, Repr

/-- Whether a resource is a swapchain image view. -/
def Resource.isImageView : Resource → Bool
  | .imageView _ => true
  | _ => false

/-- Creation order of a successful run with `n` swapchain images:
`initWindow` then `initVulkan` (lines 234-243), with image view `i` created in
the `i`-th iteration of `createSwapChainImageViews` (lines 525-546) and the
pipeline layout created before the pipeline inside `createGraphicsPipeline`. -/
def creationOrder (n : Nat) : List Resource :=
  [Resource.window, Resource.vkInstance, Resource.surface, Resource.logicalDevice,
    Resource.swapchain]
  ++ (List.range n).map Resource.imageView
  ++ [Resource.renderPass, Resource.pipelineLayout, Resource.graphicsPipeline]

/-- Destruction order performed by `Application::cleanup` (lines 251-266): the
image-view loop iterates the vector front to back, so image view `i` is
destroyed in the `i`-th iteration. -/
def destructionOrder (n : Nat) : List Resource :=
  [Resource.graphicsPipeline, Resource.pipelineLayout, Resource.renderPass]
  ++ (List.range n).map Resource.imageView
  ++ [Resource.swapchain, Resource.logicalDevice, Resource.surface, Resource.vkInstance,
    Resource.window]

lemma chooseSwapSurfaceFormatLoop_eq_find (l : List SurfaceFormat) :
    chooseSwapSurfaceFormatLoop l =
      l.find? (fun f => f.format == VK_FORMAT_B8G8R8A8_SRGB &&
        f.colorSpace == VK_COLORSPACE_SRGB_NONLINEAR_KHR) := by
  induction l with
  | nil => rfl
  | cons f rest ih =>
    by_cases h : (f.format == VK_FORMAT_B8G8R8A8_SRGB &&
        f.colorSpace == VK_COLORSPACE_SRGB_NONLINEAR_KHR) = true
    · simp [chooseSwapSurfaceFormatLoop, List.find?_cons, h]
    · simp only [Bool.not_eq_true] at h
      simp [chooseSwapSurfaceFormatLoop, List.find?_cons, h, ih]

lemma chooseSwapSurfaceFormat_isSome_of_ne_nil (l : List SurfaceFormat) (h : l ≠ []) :
    (chooseSwapSurfaceFormat l).isSome = true := by
  unfold chooseSwapSurfaceFormat
  cases hl : chooseSwapSurfaceFormatLoop l with
  | some f => rfl
  | none =>
    cases l with
    | nil => exact absurd rfl h
    | cons a as => rfl

/-- Claim C7: on a non-empty supported-format list, chooseSwapSurfaceFormat
never fails, returns the first entry matching the preferred
(B8G8R8A8_SRGB, SRGB_NONLINEAR) pair when one exists anywhere in the list, and
otherwise returns the list's first element. -/
theorem chooseSwapSurfaceFormat_first_preferred_else_head (l : List SurfaceFormat)
    (h : l ≠ []) :
    (chooseSwapSurfaceFormat l).isSome = true ∧
    (∀ f, l.find? (fun g => g.format == VK_FORMAT_B8G8R8A8_SRGB &&
        g.colorSpace == VK_COLORSPACE_SRGB_NONLINEAR_KHR) = some f →
      chooseSwapSurfaceFormat l = some f) ∧
    (l.find? (fun g => g.format == VK_FORMAT_B8G8R8A8_SRGB &&
        g.colorSpace == VK_COLORSPACE_SRGB_NONLINEAR_KHR) = none →
      chooseSwapSurfaceFormat l = l.head?) := by
  refine ⟨chooseSwapSurfaceFormat_isSome_of_ne_nil l h, ?_, ?_⟩
  · intro f hf
    unfold chooseSwapSurfaceFormat
    rw [chooseSwapSurfaceFormatLoop_eq_find, hf]
  · intro hnone
    unfold chooseSwapSurfaceFormat
    rw [chooseSwapSurfaceFormatLoop_eq_find, hnone]

theorem chooseSwapSurfaceFormat_first_preferred_else_head_witness :
    chooseSwapSurfaceFormat [⟨44, 0⟩, ⟨50, 0⟩] = some ⟨50, 0⟩ :=
  (chooseSwapSurfaceFormat_first_preferred_else_head _ (by decide)).2.1 _ (by decide)

/-- Claim C10: the fallback of chooseSwapSurfaceFormat faults (returns none,
modelling the .at(0) exception) on an empty list, and under the precondition
that the device passed isPhysicalDeviceSuitable the surface-format list is
non-empty, so the fallback access is in bounds and the fault is unreachable. -/
theorem chooseSwapSurfaceFormat_fault_unreachable_when_suitable :
    chooseSwapSurfaceFormat [] = none ∧
    ∀ d : PhysicalDevice, isPhysicalDeviceSuitable d = true →
      (querySwapChainSupport d).surfaceFormats ≠ [] ∧
      (chooseSwapSurfaceFormat (querySwapChainSupport d).surfaceFormats).isSome = true := by
  refine ⟨rfl, ?_⟩
  intro d h
  simp only [isPhysicalDeviceSuitable, Bool.and_eq_true] at h
  obtain ⟨⟨hcomp, hext⟩, hadq⟩ := h
  rw [if_pos hext] at hadq
  simp only [Bool.and_eq_true, Bool.not_eq_eq_eq_not, Bool.not_true] at hadq
  have hne : (querySwapChainSupport d).surfaceFormats ≠ [] := by
    intro hnil
    rw [hnil] at hadq
    simp [List.isEmpty] at hadq
  exact ⟨hne, chooseSwapSurfaceFormat_isSome_of_ne_nil _ hne⟩

theorem chooseSwapSurfaceFormat_fault_unreachable_when_suitable_witness :
    isPhysicalDeviceSuitable
      ⟨1, "gpu0", [⟨1, true⟩], ["VK_KHR_swapchain"],
        ⟨2, 4, ⟨800, 600⟩, ⟨1, 1⟩, ⟨2048, 2048⟩⟩, [⟨50, 0⟩], [2]⟩ = true ∧
    (chooseSwapSurfaceFormat (querySwapChainSupport
      ⟨1, "gpu0", [⟨1, true⟩], ["VK_KHR_swapchain"],
        ⟨2, 4, ⟨800, 600⟩, ⟨1, 1⟩, ⟨2048, 2048⟩⟩, [⟨50, 0⟩], [2]⟩).surfaceFormats).isSome = true :=
  ⟨by decide,
    (chooseSwapSurfaceFormat_fault_unreachable_when_suitable.2 _ (by decide)).2⟩

/-- Claim C2 (code bug): the chosen swapchain image count is
std::clamp(minImageCount + 1, minImageCount, maxImageCount) with no special
case for maxImageCount = 0; for minImageCount = 2, maxImageCount = 0 the code
computes 0 (clamp with an upper bound below the lower bound), not the
minImageCount + 1 = 3 the unbounded-maximum rule requires, while the bounded
examples (2,4) and (4,4) give 3 and 4 as the claim states. -/
theorem swapChainImagesCount_unbounded_max_bug :
    swapChainImagesCount ⟨2, 0, ⟨0, 0⟩, ⟨0, 0⟩, ⟨0, 0⟩⟩ = 0 ∧
    swapChainImagesCount ⟨2, 0, ⟨0, 0⟩, ⟨0, 0⟩, ⟨0, 0⟩⟩ ≠ 2 + 1 ∧
    swapChainImagesCount ⟨2, 4, ⟨0, 0⟩, ⟨0, 0⟩, ⟨0, 0⟩⟩ = 3 ∧
    swapChainImagesCount ⟨4, 4, ⟨0, 0⟩, ⟨0, 0⟩, ⟨0, 0⟩⟩ = 4 := by
  decide

/-- Claim C5 is false as stated: on the failure path of
vkCreateGraphicsPipelines the function throws before reaching the
vkDestroyShaderModule calls, so neither shader module is destroyed even though
the pipeline-creation call was made. -/
theorem createGraphicsPipeline_failure_skips_destroy :
    PipelineEvent.createPipeline ∈ createGraphicsPipelineEvents false ∧
    PipelineEvent.destroyVertShaderModule ∉ createGraphicsPipelineEvents false ∧
    PipelineEvent.destroyFragShaderModule ∉ createGraphicsPipelineEvents false := by
  decide

/-- Claim C5 (amended): both shader modules are destroyed immediately after
pipeline construction on the success path — and only there; on the failure
path the throw propagates first and the modules are never destroyed. -/
theorem createGraphicsPipeline_destroys_modules_only_on_success :
    ∀ pipelineCreationSucceeds : Bool,
      ((PipelineEvent.destroyVertShaderModule ∈
          createGraphicsPipelineEvents pipelineCreationSucceeds) ↔
        pipelineCreationSucceeds = true) ∧
      ((PipelineEvent.destroyFragShaderModule ∈
          createGraphicsPipelineEvents pipelineCreationSucceeds) ↔
        pipelineCreationSucceeds = true) ∧
      createGraphicsPipelineEvents true =
        [PipelineEvent.createVertShaderModule, PipelineEvent.createFragShaderModule,
          PipelineEvent.createPipelineLayout, PipelineEvent.createPipeline,
          PipelineEvent.destroyVertShaderModule, PipelineEvent.destroyFragShaderModule] := by
  intro b
  cases b <;> exact ⟨by decide, by decide, by decide⟩

theorem createGraphicsPipeline_destroys_modules_only_on_success_witness :
    PipelineEvent.destroyVertShaderModule ∈ createGraphicsPipelineEvents true :=
  ((createGraphicsPipeline_destroys_modules_only_on_success true).1).mpr rfl

/-- Claim C6: the swapchain sharing mode is exclusive with an empty family
index list and count 0 exactly when the graphics and presentation family
indices coincide, and concurrent with exactly the two distinct indices and
count 2 otherwise. -/
theorem swapChainSharingInfo_exclusive_iff_equal :
    ∀ graphicsFamily presentationFamily : Nat,
      ((swapChainSharingInfo graphicsFamily presentationFamily).imageSharingMode =
          VkSharingMode.exclusive ↔ graphicsFamily = presentationFamily) ∧
      ((swapChainSharingInfo graphicsFamily presentationFamily).imageSharingMode =
          VkSharingMode.concurrent ↔ graphicsFamily ≠ presentationFamily) ∧
      ((swapChainSharingInfo graphicsFamily presentationFamily).pQueueFamilyIndices =
        if graphicsFamily = presentationFamily then []
        else [graphicsFamily, presentationFamily]) ∧
      ((swapChainSharingInfo graphicsFamily presentationFamily).queueFamilyIndexCount =
        if graphicsFamily = presentationFamily then 0 else 2) := by
  intro g p
  by_cases h : g = p <;> simp [swapChainSharingInfo, h]

theorem swapChainSharingInfo_exclusive_iff_equal_witness :
    (swapChainSharingInfo 0 1).pQueueFamilyIndices = [0, 1] ∧
    (swapChainSharingInfo 3 3).imageSharingMode = VkSharingMode.exclusive := by
  constructor
  · have h := (swapChainSharingInfo_exclusive_iff_equal 0 1).2.2.1
    simpa using h
  · exact (swapChainSharingInfo_exclusive_iff_equal 3 3).1.mpr rfl

/-- Claim C9 is false as stated: for capabilities whose current extent is
(0xFFFFFFFF, 600) — not the all-axes sentinel — the claim requires the current
extent verbatim, but the code tests only the width against the sentinel and
therefore clamps the framebuffer size (1024, 768) to (800, 500). -/
theorem chooseSwapExtent_mixed_sentinel_cex :
    chooseSwapExtent ⟨2, 4, ⟨4294967295, 600⟩, ⟨1, 1⟩, ⟨800, 500⟩⟩ 1024 768 = ⟨800, 500⟩ ∧
    (⟨2, 4, ⟨4294967295, 600⟩, ⟨1, 1⟩, ⟨800, 500⟩⟩ : SurfaceCapabilitiesKHR).currentExtent ≠
      ⟨uint32Max, uint32Max⟩ ∧
    chooseSwapExtent ⟨2, 4, ⟨4294967295, 600⟩, ⟨1, 1⟩, ⟨800, 500⟩⟩ 1024 768 ≠
      (⟨2, 4, ⟨4294967295, 600⟩, ⟨1, 1⟩, ⟨800, 500⟩⟩ : SurfaceCapabilitiesKHR).currentExtent := by
  refine ⟨by decide, by decide, by decide⟩

/-- Claim C9 (amended): the sentinel test inspects only the width axis — when
currentExtent.width is 0xFFFFFFFF the framebuffer size is clamped
independently on each axis to [minImageExtent, maxImageExtent], and otherwise
the surface's currentExtent is returned verbatim. -/
theorem chooseSwapExtent_width_sentinel_spec :
    ∀ (caps : SurfaceCapabilitiesKHR) (fbWidth fbHeight : Nat),
      (caps.currentExtent.width = uint32Max →
        chooseSwapExtent caps fbWidth fbHeight =
          ⟨stdClamp fbWidth caps.minImageExtent.width caps.maxImageExtent.width,
            stdClamp fbHeight caps.minImageExtent.height caps.maxImageExtent.height⟩) ∧
      (caps.currentExtent.width ≠ uint32Max →
        chooseSwapExtent caps fbWidth fbHeight = caps.currentExtent) := by
  intro caps w h
  constructor
  · intro hc
    simp [chooseSwapExtent, hc]
  · intro hc
    simp [chooseSwapExtent, hc]

theorem chooseSwapExtent_width_sentinel_spec_witness :
    chooseSwapExtent ⟨2, 4, ⟨4294967295, 4294967295⟩, ⟨1, 1⟩, ⟨2048, 2048⟩⟩ 1024 768 =
      ⟨stdClamp 1024 1 2048, stdClamp 768 1 2048⟩ :=
  (chooseSwapExtent_width_sentinel_spec ⟨2, 4, ⟨4294967295, 4294967295⟩, ⟨1, 1⟩, ⟨2048, 2048⟩⟩
    1024 768).1 (by decide)

lemma filter_not_imageView_map_range (l : List Nat) :
    (l.map Resource.imageView).filter (fun r => !r.isImageView) = [] := by
  induction l with
  | nil => rfl
  | cons a as ih => simp [Resource.isImageView, ih]

lemma filter_imageView_map_range (l : List Nat) :
    (l.map Resource.imageView).filter Resource.isImageView = l.map Resource.imageView := by
  induction l with
  | nil => rfl
  | cons a as ih => simp [Resource.isImageView, ih]

/-- Claim C4 is false as stated: with two swapchain image views, cleanup's
teardown sequence is not the exact reverse of the creation sequence — the
image-view destruction loop runs front to back, so view 0 is destroyed before
view 1 even though it was created first. -/
theorem cleanup_not_exact_reverse_of_creation :
    destructionOrder 2 ≠ (creationOrder 2).reverse ∧
    (creationOrder 2).reverse.indexOf (Resource.imageView 1) <
      (creationOrder 2).reverse.indexOf (Resource.imageView 0) ∧
    (destructionOrder 2).indexOf (Resource.imageView 0) <
      (destructionOrder 2).indexOf (Resource.imageView 1) := by
  refine ⟨by decide, by decide, by decide⟩

/-- Claim C4 (amended): cleanup destroys resources in the exact reverse of
creation order at the level of distinct resources, except that the swapchain
image views are destroyed in their creation order (index 0 first) rather than
in reverse: removing the image views from both sequences gives exact mirror
images, while the image-view subsequence of the teardown equals (not reverses)
the image-view subsequence of creation. -/
theorem cleanup_reverse_except_image_views :
    ∀ n : Nat,
      (destructionOrder n).filter (fun r => !r.isImageView) =
        ((creationOrder n).filter (fun r => !r.isImageView)).reverse ∧
      (destructionOrder n).filter Resource.isImageView =
        (creationOrder n).filter Resource.isImageView := by
  intro n
  constructor
  · simp only [creationOrder, destructionOrder, List.filter_append,
      filter_not_imageView_map_range, List.reverse_append, List.append_nil,
      List.nil_append, List.append_assoc]
    decide
  · simp only [creationOrder, destructionOrder, List.filter_append,
      filter_imageView_map_range, List.append_assoc]
    simp [Resource.isImageView]

theorem cleanup_reverse_except_image_views_witness :
    (destructionOrder 2).filter Resource.isImageView =
      (creationOrder 2).filter Resource.isImageView :=
  (cleanup_reverse_except_image_views 2).2

lemma pickVulkanPhysicalDeviceLoop_no_discrete (l : List PhysicalDevice) :
    ∀ best : Option PhysicalDevice,
      (∀ d ∈ l, isPhysicalDeviceSuitable d = true →
        d.deviceType ≠ VK_PHYSICAL_DEVICE_TYPE_DISCRETE_GPU) →
      pickVulkanPhysicalDeviceLoop l best =
        (l.reverse.find? isPhysicalDeviceSuitable).or best := by
  induction l with
  | nil => intro best h; simp [pickVulkanPhysicalDeviceLoop]
  | cons d rest ih =>
    intro best h
    have hrest : ∀ x ∈ rest, isPhysicalDeviceSuitable x = true →
        x.deviceType ≠ VK_PHYSICAL_DEVICE_TYPE_DISCRETE_GPU :=
      fun x hx => h x (List.mem_cons_of_mem _ hx)
    by_cases hs : isPhysicalDeviceSuitable d = true
    · have hnd : d.deviceType ≠ VK_PHYSICAL_DEVICE_TYPE_DISCRETE_GPU :=
        h d (List.mem_cons_self d rest) hs
      rw [show pickVulkanPhysicalDeviceLoop (d :: rest) best =
          pickVulkanPhysicalDeviceLoop rest (some d) by
        simp [pickVulkanPhysicalDeviceLoop, hs, hnd]]
      rw [ih (some d) hrest]
      rw [List.reverse_cons, List.find?_append]
      have hd1 : List.find? isPhysicalDeviceSuitable [d] = some d := by
        simp [hs]
      rw [hd1]
      cases List.find? isPhysicalDeviceSuitable rest.reverse <;> rfl
    · rw [show pickVulkanPhysicalDeviceLoop (d :: rest) best =
          pickVulkanPhysicalDeviceLoop rest best by
        simp [pickVulkanPhysicalDeviceLoop, hs]]
      rw [ih best hrest]
      rw [List.reverse_cons, List.find?_append]
      have hd1 : List.find? isPhysicalDeviceSuitable [d] = none := by
        simp [hs]
      rw [hd1]
      cases List.find? isPhysicalDeviceSuitable rest.reverse <;> rfl

/-- Claim C1 is false as stated: in a list of two suitable non-discrete devices
the selection loop stores every suitable device it visits and never breaks, so
it ends holding the second (last) device, not the first. -/
theorem pickVulkanPhysicalDevice_last_wins_cex :
    pickVulkanPhysicalDevice
      [⟨1, "intA", [⟨1, true⟩], ["VK_KHR_swapchain"],
          ⟨2, 4, ⟨800, 600⟩, ⟨1, 1⟩, ⟨2048, 2048⟩⟩, [⟨50, 0⟩], [2]⟩,
        ⟨1, "intB", [⟨1, true⟩], ["VK_KHR_swapchain"],
          ⟨2, 4, ⟨800, 600⟩, ⟨1, 1⟩, ⟨2048, 2048⟩⟩, [⟨50, 0⟩], [2]⟩] =
      some ⟨1, "intB", [⟨1, true⟩], ["VK_KHR_swapchain"],
        ⟨2, 4, ⟨800, 600⟩, ⟨1, 1⟩, ⟨2048, 2048⟩⟩, [⟨50, 0⟩], [2]⟩ ∧
    isPhysicalDeviceSuitable
      ⟨1, "intA", [⟨1, true⟩], ["VK_KHR_swapchain"],
        ⟨2, 4, ⟨800, 600⟩, ⟨1, 1⟩, ⟨2048, 2048⟩⟩, [⟨50, 0⟩], [2]⟩ = true ∧
    ("intA" : String) ≠ "intB" := by
  refine ⟨by decide, by decide, by decide⟩

/-- Claim C1 (amended): on a device list containing zero discrete-class
devices, pickVulkanPhysicalDevice returns the last suitable device in
enumeration order (every suitable candidate overwrites the previous choice and
the loop never breaks early without a discrete match), and fails (none) when
no device is suitable. -/
theorem pickVulkanPhysicalDevice_no_discrete_last_suitable :
    ∀ l : List PhysicalDevice,
      (∀ d ∈ l, d.deviceType ≠ VK_PHYSICAL_DEVICE_TYPE_DISCRETE_GPU) →
      pickVulkanPhysicalDevice l = (l.filter isPhysicalDeviceSuitable).getLast? := by
  intro l h
  unfold pickVulkanPhysicalDevice
  rw [pickVulkanPhysicalDeviceLoop_no_discrete l none
    (fun d hd _ => h d hd)]
  rw [List.filter_getLast?]
  cases l.reverse.find? isPhysicalDeviceSuitable <;> rfl

theorem pickVulkanPhysicalDevice_no_discrete_last_suitable_witness :
    pickVulkanPhysicalDevice
      [⟨1, "gpuA", [⟨1, true⟩], ["VK_KHR_swapchain"],
          ⟨2, 4, ⟨800, 600⟩, ⟨1, 1⟩, ⟨2048, 2048⟩⟩, [⟨50, 0⟩], [2]⟩,
        ⟨1, "gpuB", [⟨1, true⟩], ["VK_KHR_swapchain"],
          ⟨2, 4, ⟨800, 600⟩, ⟨1, 1⟩, ⟨2048, 2048⟩⟩, [⟨50, 0⟩], [2]⟩] =
      (([⟨1, "gpuA", [⟨1, true⟩], ["VK_KHR_swapchain"],
          ⟨2, 4, ⟨800, 600⟩, ⟨1, 1⟩, ⟨2048, 2048⟩⟩, [⟨50, 0⟩], [2]⟩,
        ⟨1, "gpuB", [⟨1, true⟩], ["VK_KHR_swapchain"],
          ⟨2, 4, ⟨800, 600⟩, ⟨1, 1⟩, ⟨2048, 2048⟩⟩, [⟨50, 0⟩],
          [2]⟩] : List PhysicalDevice).filter isPhysicalDeviceSuitable).getLast? :=
  pickVulkanPhysicalDevice_no_discrete_last_suitable _ (by decide)

lemma pickVulkanPhysicalDeviceLoop_first_discrete (l : List PhysicalDevice) :
    ∀ (best : Option PhysicalDevice) (d : PhysicalDevice),
      l.find? (fun x => isPhysicalDeviceSuitable x &&
        (x.deviceType == VK_PHYSICAL_DEVICE_TYPE_DISCRETE_GPU)) = some d →
      pickVulkanPhysicalDeviceLoop l best = some d := by
  induction l with
  | nil => intro best d h; simp at h
  | cons x rest ih =>
    intro best d h
    cases hp : (isPhysicalDeviceSuitable x &&
        (x.deviceType == VK_PHYSICAL_DEVICE_TYPE_DISCRETE_GPU)) with
    | true =>
      rw [List.find?_cons, hp] at h
      simp only [Option.some.injEq] at h
      obtain rfl := h
      obtain ⟨hs, ht⟩ := Bool.and_eq_true_iff.mp hp
      have ht2 : x.deviceType = VK_PHYSICAL_DEVICE_TYPE_DISCRETE_GPU :=
        eq_of_beq ht
      simp [pickVulkanPhysicalDeviceLoop, hs, ht2]
    | false =>
      rw [List.find?_cons, hp] at h
      simp only at h
      by_cases hs : isPhysicalDeviceSuitable x = true
      · have ht : x.deviceType ≠ VK_PHYSICAL_DEVICE_TYPE_DISCRETE_GPU := by
          intro he
          have htrue : (isPhysicalDeviceSuitable x &&
              (x.deviceType == VK_PHYSICAL_DEVICE_TYPE_DISCRETE_GPU)) = true := by
            simp [hs, he]
          exact Bool.noConfusion (htrue.symm.trans hp)
        rw [show pickVulkanPhysicalDeviceLoop (x :: rest) best =
            pickVulkanPhysicalDeviceLoop rest (some x) by
          simp [pickVulkanPhysicalDeviceLoop, hs, ht]]
        exact ih (some x) d h
      · rw [show pickVulkanPhysicalDeviceLoop (x :: rest) best =
            pickVulkanPhysicalDeviceLoop rest best by
          simp [pickVulkanPhysicalDeviceLoop, hs]]
        exact ih best d h

/-- Claim C8: whenever the enumerated device list contains a suitable
discrete-class device anywhere, pickVulkanPhysicalDevice returns the first
suitable discrete device in enumeration order, even when a suitable
non-discrete device precedes it. -/
theorem pickVulkanPhysicalDevice_first_suitable_discrete :
    ∀ (l : List PhysicalDevice) (d : PhysicalDevice),
      l.find? (fun x => isPhysicalDeviceSuitable x &&
        (x.deviceType == VK_PHYSICAL_DEVICE_TYPE_DISCRETE_GPU)) = some d →
      pickVulkanPhysicalDevice l = some d :=
  fun l d h => pickVulkanPhysicalDeviceLoop_first_discrete l none d h

theorem pickVulkanPhysicalDevice_first_suitable_discrete_witness :
    pickVulkanPhysicalDevice
      [⟨1, "gpuI", [⟨1, true⟩], ["VK_KHR_swapchain"],
          ⟨2, 4, ⟨800, 600⟩, ⟨1, 1⟩, ⟨2048, 2048⟩⟩, [⟨50, 0⟩], [2]⟩,
        ⟨2, "gpuD", [⟨1, true⟩], ["VK_KHR_swapchain"],
          ⟨2, 4, ⟨800, 600⟩, ⟨1, 1⟩, ⟨2048, 2048⟩⟩, [⟨50, 0⟩], [2]⟩] =
      some ⟨2, "gpuD", [⟨1, true⟩], ["VK_KHR_swapchain"],
        ⟨2, 4, ⟨800, 600⟩, ⟨1, 1⟩, ⟨2048, 2048⟩⟩, [⟨50, 0⟩], [2]⟩ :=
  pickVulkanPhysicalDevice_first_suitable_discrete _ _ (by decide)

lemma stepIndices_graphicsFamily (f : QueueFamily) (i : Nat) (acc : QueueFamilyIndices) :
    (stepIndices f i acc).graphicsFamily =
      if f.graphicsCapable then some i else acc.graphicsFamily := by
  by_cases hg : f.graphicsCapable = true <;> by_cases hp : f.presentSupport = true <;>
    simp [stepIndices, hg, hp]

lemma stepIndices_presentationFamily (f : QueueFamily) (i : Nat) (acc : QueueFamilyIndices) :
    (stepIndices f i acc).presentationFamily =
      if f.presentSupport then some i else acc.presentationFamily := by
  by_cases hg : f.graphicsCapable = true <;> by_cases hp : f.presentSupport = true <;>
    simp [stepIndices, hg, hp]

lemma findQueueFamiliesAux_isComplete (fams : List QueueFamily) :
    ∀ (i : Nat) (acc : QueueFamilyIndices),
      (findQueueFamiliesAux fams i acc).isComplete =
        ((acc.graphicsFamily.isSome || fams.any QueueFamily.graphicsCapable) &&
          (acc.presentationFamily.isSome || fams.any (fun f => f.presentSupport))) := by
  induction fams with
  | nil =>
    intro i acc
    simp [findQueueFamiliesAux, QueueFamilyIndices.isComplete]
  | cons f rest ih =>
    intro i acc
    simp only [findQueueFamiliesAux]
    split
    case isTrue h2 =>
      rw [QueueFamilyIndices.isComplete] at h2 ⊢
      rw [stepIndices_graphicsFamily, stepIndices_presentationFamily] at h2 ⊢
      by_cases hg : f.graphicsCapable = true <;> by_cases hp : f.presentSupport = true <;>
        simp_all [List.any_cons]
    case isFalse h2 =>
      rw [ih]
      rw [stepIndices_graphicsFamily, stepIndices_presentationFamily]
      by_cases hg : f.graphicsCapable = true <;> by_cases hp : f.presentSupport = true <;>
        simp [hg, hp, List.any_cons, Bool.or_assoc]

lemma findQueueFamiliesAux_graphics_capable (fams : List QueueFamily) :
    ∀ (i : Nat) (acc : QueueFamilyIndices) (k : Nat),
      (findQueueFamiliesAux fams i acc).graphicsFamily = some k →
      acc.graphicsFamily = some k ∨
        ∃ j f, fams.get? j = some f ∧ f.graphicsCapable = true ∧ k = i + j := by
  induction fams with
  | nil =>
    intro i acc k h
    exact Or.inl h
  | cons f rest ih =>
    intro i acc k h
    simp only [findQueueFamiliesAux] at h
    split at h
    case isTrue =>
      rw [stepIndices_graphicsFamily] at h
      by_cases hg : f.graphicsCapable = true
      · rw [if_pos hg] at h
        obtain rfl : i = k := by injection h
        exact Or.inr ⟨0, f, rfl, hg, by omega⟩
      · rw [if_neg hg] at h
        exact Or.inl h
    case isFalse =>
      rcases ih (i + 1) (stepIndices f i acc) k h with h1 | ⟨j, f1, hj, hf1, hk⟩
      · rw [stepIndices_graphicsFamily] at h1
        by_cases hg : f.graphicsCapable = true
        · rw [if_pos hg] at h1
          obtain rfl : i = k := by injection h1
          exact Or.inr ⟨0, f, rfl, hg, by omega⟩
        · rw [if_neg hg] at h1
          exact Or.inl h1
      · exact Or.inr ⟨j + 1, f1, hj, hf1, by omega⟩

lemma findQueueFamiliesAux_present_capable (fams : List QueueFamily) :
    ∀ (i : Nat) (acc : QueueFamilyIndices) (k : Nat),
      (findQueueFamiliesAux fams i acc).presentationFamily = some k →
      acc.presentationFamily = some k ∨
        ∃ j f, fams.get? j = some f ∧ f.presentSupport = true ∧ k = i + j := by
  induction fams with
  | nil =>
    intro i acc k h
    exact Or.inl h
  | cons f rest ih =>
    intro i acc k h
    simp only [findQueueFamiliesAux] at h
    split at h
    case isTrue =>
      rw [stepIndices_presentationFamily] at h
      by_cases hp : f.presentSupport = true
      · rw [if_pos hp] at h
        obtain rfl : i = k := by injection h
        exact Or.inr ⟨0, f, rfl, hp, by omega⟩
      · rw [if_neg hp] at h
        exact Or.inl h
    case isFalse =>
      rcases ih (i + 1) (stepIndices f i acc) k h with h1 | ⟨j, f1, hj, hf1, hk⟩
      · rw [stepIndices_presentationFamily] at h1
        by_cases hp : f.presentSupport = true
        · rw [if_pos hp] at h1
          obtain rfl : i = k := by injection h1
          exact Or.inr ⟨0, f, rfl, hp, by omega⟩
        · rw [if_neg hp] at h1
          exact Or.inl h1
      · exact Or.inr ⟨j + 1, f1, hj, hf1, by omega⟩

/-- Claim C3 is false as stated: with family 0 graphics-only and family 1
graphics-and-presentation, the scan overwrites the graphics index at family 1
before the completion break, returning graphics-family 1 even though the first
graphics-capable family has index 0. -/
theorem findQueueFamilies_overwrites_cex :
    findQueueFamilies [⟨1, false⟩, ⟨1, true⟩] = ⟨some 1, some 1⟩ ∧
    (⟨1, false⟩ : QueueFamily).graphicsCapable = true ∧
    (findQueueFamilies [⟨1, false⟩, ⟨1, true⟩]).graphicsFamily ≠ some 0 := by
  refine ⟨by decide, by decide, by decide⟩

/-- Claim C3 (amended): findQueueFamilies scans families in index order,
updating the graphics-family to each graphics-capable index and the
presentation-family to each presentation-supporting index seen so far (later
matches overwrite earlier ones) and stopping at the end of the first index at
which both are set; it never fails: any recorded index belongs to a family with
the corresponding capability, and the result is complete precisely when the
list contains at least one graphics-capable and at least one
presentation-supporting family — otherwise an incomplete result is returned. -/
theorem findQueueFamilies_scan_spec :
    ∀ fams : List QueueFamily,
      ((findQueueFamilies fams).isComplete =
        (fams.any QueueFamily.graphicsCapable && fams.any (fun f => f.presentSupport))) ∧
      (∀ k, (findQueueFamilies fams).graphicsFamily = some k →
        ∃ f, fams.get? k = some f ∧ f.graphicsCapable = true) ∧
      (∀ k, (findQueueFamilies fams).presentationFamily = some k →
        ∃ f, fams.get? k = some f ∧ f.presentSupport = true) := by
  intro fams
  refine ⟨?_, ?_, ?_⟩
  · rw [findQueueFamilies, findQueueFamiliesAux_isComplete]
    rfl
  · intro k h
    rcases findQueueFamiliesAux_graphics_capable fams 0 ⟨none, none⟩ k h with h1 | ⟨j, f, hj, hf, hk⟩
    · exact absurd h1 (by simp)
    · obtain rfl : k = j := by omega
      exact ⟨f, hj, hf⟩
  · intro k h
    rcases findQueueFamiliesAux_present_capable fams 0 ⟨none, none⟩ k h with h1 | ⟨j, f, hj, hf, hk⟩
    · exact absurd h1 (by simp)
    · obtain rfl : k = j := by omega
      exact ⟨f, hj, hf⟩

theorem findQueueFamilies_scan_spec_witness :
    ((findQueueFamilies [⟨1, false⟩, ⟨0, true⟩]).isComplete = true) ∧
    (∃ f, ([⟨1, false⟩, ⟨0, true⟩] : List QueueFamily).get? 0 = some f ∧
      f.graphicsCapable = true) := by
  constructor
  · have h := (findQueueFamilies_scan_spec [⟨1, false⟩, ⟨0, true⟩]).1
    rw [h]
    decide
  · exact (findQueueFamilies_scan_spec [⟨1, false⟩, ⟨0, true⟩]).2.1 0 (by decide)

end VulkanTriangle
